import Mathlib

/-!
Verification of the restaurant onboarding and KYC controller
(`src/controllers/restaurantController.js`) of the orado_backend repository.

The JavaScript handlers are shallowly embedded as pure Lean functions over an
explicit store (the document database) and an environment record holding the
external collaborators (the object-storage upload service, the optional global
`bcrypt` binding, the id generator).  HTTP responses are modelled as Lean
structures carrying the status code and the JSON fields each handler emits.
-/

/-! ## JavaScript values and JSON parsing

`openingHours` arrives as a string and the controller runs it through
`JSON.parse`, keeping the result only when it is an array.  `Js` models the
JSON value universe and `jsonParse` models the parser (standard JSON grammar;
exponents and unicode escapes are not needed by any theorem below). -/

inductive Js where
  | null
  | bool (b : Bool)
  | num (q : ℚ)
  | str (s : String)
  | arr (xs : List Js)
  | obj (fields : List (String × Js))

def charBetween (lo hi c : Char) : Bool :=
  decide (lo ≤ c) && decide (c ≤ hi)

def isDigitChar (c : Char) : Bool := charBetween '0' '9' c

def isWsChar (c : Char) : Bool := c == ' ' || c == '\t' || c == '\n' || c == '\r'

def skipWs (cs : List Char) : List Char := cs.dropWhile isWsChar

def digitVal (c : Char) : Nat := c.toNat - 48

def digitsToNat (ds : List Char) : Nat := ds.foldl (fun a c => a * 10 + digitVal c) 0

/-- Parses the digits of a JSON number (integer part already at the head). -/
def parseNumberTail (cs : List Char) : Option (ℚ × List Char) :=
  let ip := cs.takeWhile isDigitChar
  let r1 := cs.dropWhile isDigitChar
  if ip.isEmpty then none
  else
    match r1 with
    | '.' :: r2 =>
      let fp := r2.takeWhile isDigitChar
      let r3 := r2.dropWhile isDigitChar
      if fp.isEmpty then none
      else some ((digitsToNat ip : ℚ) + (digitsToNat fp : ℚ) / ((10 : ℚ) ^ fp.length), r3)
    | _ => some ((digitsToNat ip : ℚ), r1)

def unescapeChar (c : Char) : Char :=
  if c == 'n' then '\n' else if c == 't' then '\t' else if c == 'r' then '\r' else c

/-- Parses the body of a JSON string (the opening quote already consumed). -/
def parseStrTail : Nat → List Char → Option (List Char × List Char)
  | 0, _ => none
  | _ + 1, [] => none
  | fuel + 1, c :: r =>
    if c == '"' then some ([], r)
    else if c == '\\' then
      match r with
      | [] => none
      | e :: r2 =>
        match parseStrTail fuel r2 with
        | none => none
        | some (s, rest) => some (unescapeChar e :: s, rest)
    else
      match parseStrTail fuel r with
      | none => none
      | some (s, rest) => some (c :: s, rest)

/-- Parser mode: a single value, the items of an array, or the members of an
object (the latter two return their result wrapped in `Js.arr` / `Js.obj`). -/
inductive PMode where
  | val
  | items
  | members

/-- Fuel-indexed JSON parser. -/
def parseP : Nat → PMode → List Char → Option (Js × List Char)
  | 0, _, _ => none
  | fuel + 1, .val, cs =>
    match skipWs cs with
    | 'n' :: 'u' :: 'l' :: 'l' :: r => some (.null, r)
    | 't' :: 'r' :: 'u' :: 'e' :: r => some (.bool true, r)
    | 'f' :: 'a' :: 'l' :: 's' :: 'e' :: r => some (.bool false, r)
    | '"' :: r =>
      match parseStrTail (fuel + 1) r with
      | none => none
      | some (s, rest) => some (.str (String.mk s), rest)
    | '-' :: r =>
      match parseNumberTail r with
      | none => none
      | some (q, rest) => some (.num (-q), rest)
    | '[' :: r =>
      (match skipWs r with
       | ']' :: r2 => some (.arr [], r2)
       | r2 =>
         match parseP fuel .items r2 with
         | some (v, rest) => some (v, rest)
         | none => none)
    | '\x7b' :: r =>
      (match skipWs r with
       | '\x7d' :: r2 => some (.obj [], r2)
       | r2 =>
         match parseP fuel .members r2 with
         | some (v, rest) => some (v, rest)
         | none => none)
    | c :: r =>
      if isDigitChar c then
        match parseNumberTail (c :: r) with
        | none => none
        | some (q, rest) => some (.num q, rest)
      else none
    | [] => none
  | fuel + 1, .items, cs =>
    match parseP fuel .val cs with
    | none => none
    | some (v, rest) =>
      match skipWs rest with
      | ',' :: r2 =>
        (match parseP fuel .items r2 with
         | some (.arr vs, rest2) => some (.arr (v :: vs), rest2)
         | _ => none)
      | ']' :: r2 => some (.arr [v], r2)
      | _ => none
  | fuel + 1, .members, cs =>
    match skipWs cs with
    | '"' :: r =>
      (match parseStrTail (fuel + 1) r with
       | none => none
       | some (k, rest) =>
         match skipWs rest with
         | ':' :: r2 =>
           (match parseP fuel .val r2 with
            | none => none
            | some (v, rest2) =>
              match skipWs rest2 with
              | ',' :: r3 =>
                (match parseP fuel .members r3 with
                 | some (.obj ms, rest3) => some (.obj ((String.mk k, v) :: ms), rest3)
                 | _ => none)
              | '\x7d' :: r3 => some (.obj [(String.mk k, v)], r3)
              | _ => none)
         | _ => none)
    | _ => none

/-- `JSON.parse`: succeeds when the whole input is one JSON value. -/
def jsonParse (s : String) : Option Js :=
  match parseP (2 * s.length + 2) .val s.data with
  | none => none
  | some (v, rest) => if (skipWs rest).isEmpty then some v else none

/-! ## JavaScript coercion helpers -/

/-- A JavaScript number as produced by `parseFloat`: a finite value or one
of the two infinities (`parseFloat("Infinity")` and `parseFloat("-Infinity")`
succeed and are truthy).  `NaN` is represented as `none` at the use sites. -/
inductive JsNum where
  | fin (q : ℚ)
  | inf (neg : Bool)
deriving DecidableEq

/-- The decimal part of a `parseFloat` literal: digits, optional fraction
(at least one digit on either side of the dot, so ".5" parses), then an
optional exponent part whose digits may be missing (then it is ignored,
as in `parseFloat("1e")`).  Trailing garbage is ignored. -/
def parseDecimal (cs : List Char) : Option ℚ :=
  let ip := cs.takeWhile isDigitChar
  let r1 := cs.dropWhile isDigitChar
  let fp :=
    match r1 with
    | '.' :: rf => rf.takeWhile isDigitChar
    | _ => []
  let r2 :=
    match r1 with
    | '.' :: rf => rf.dropWhile isDigitChar
    | _ => r1
  if ip.isEmpty && fp.isEmpty then none
  else
    let mant : ℚ := (digitsToNat ip : ℚ) + (digitsToNat fp : ℚ) / ((10 : ℚ) ^ fp.length)
    let expVal : Int :=
      match r2 with
      | 'e' :: re | 'E' :: re =>
        (match re with
         | '-' :: rd =>
           if (rd.takeWhile isDigitChar).isEmpty then 0
           else -(digitsToNat (rd.takeWhile isDigitChar) : Int)
         | '+' :: rd =>
           if (rd.takeWhile isDigitChar).isEmpty then 0
           else (digitsToNat (rd.takeWhile isDigitChar) : Int)
         | rd =>
           if (rd.takeWhile isDigitChar).isEmpty then 0
           else (digitsToNat (rd.takeWhile isDigitChar) : Int))
      | _ => 0
    some (mant * (10 : ℚ) ^ expVal)

/-- `parseFloat` on a string: skips whitespace, takes an optional sign,
then either the literal Infinity or a decimal literal; `none` is JS `NaN`
(no parsable numeric prefix). -/
def jsParseFloat (s : String) : Option JsNum :=
  let cs := skipWs s.data
  let signed : Bool × List Char :=
    match cs with
    | '-' :: r => (true, r)
    | '+' :: r => (false, r)
    | _ => (false, cs)
  match signed.2 with
  | 'I' :: 'n' :: 'f' :: 'i' :: 'n' :: 'i' :: 't' :: 'y' :: _ => some (.inf signed.1)
  | rest =>
    match parseDecimal rest with
    | none => none
    | some q => some (.fin (if signed.1 then -q else q))

/-- `x || 0` on a JS number that may be absent or `NaN` (`none`). -/
def jsOrZeroQ (x : Option ℚ) : ℚ :=
  match x with
  | none => 0
  | some q => if q = 0 then 0 else q

/-- `x || 0` on a `parseFloat` result: `NaN` and `0` are falsy and give 0,
every other value (the infinities included) passes through. -/
def jsNumTruthyOrZero : Option JsNum → JsNum
  | none => .fin 0
  | some (.fin q) => if q = 0 then .fin 0 else .fin q
  | some (.inf b) => .inf b

/-- `parseFloat(v) || 0` where `v` is an optional string field
(`parseFloat(undefined)` is `NaN`, hence 0). -/
def jsFloatOrZero (v : Option String) : JsNum :=
  match v with
  | none => .fin 0
  | some s => jsNumTruthyOrZero (jsParseFloat s)

/-- `x || d` on a JS string that may be absent: empty strings are falsy. -/
def jsOrStr (x : Option String) (d : String) : String :=
  match x with
  | none => d
  | some s => if s = "" then d else s

/-- `!x` on a JS string that may be absent: truthy iff present and non-empty. -/
def jsFalsyStr (x : Option String) : Bool :=
  match x with
  | none => true
  | some s => s == ""

/-- `x || d` on a JS number that may be absent: `0` is falsy. -/
def jsOrQDefault (x : Option ℚ) (d : ℚ) : ℚ :=
  match x with
  | none => d
  | some q => if q = 0 then d else q

/-- `String.prototype.trim`: strips whitespace from both ends.  (Implemented
structurally over the character list so that concrete instances compute.) -/
def jsTrim (s : String) : String :=
  String.mk (((s.data.dropWhile isWsChar).reverse.dropWhile isWsChar).reverse)

def splitAtComma : List Char → List (List Char)
  | [] => [[]]
  | c :: r =>
    if c == ',' then [] :: splitAtComma r
    else
      match splitAtComma r with
      | [] => [[c]]
      | h :: t => (c :: h) :: t

/-- `String.prototype.split(",")`. -/
def splitOnComma (s : String) : List String :=
  (splitAtComma s.data).map String.mk

/-! ## Identifier shape (`mongoose.Types.ObjectId.isValid`)

Mongoose accepts a 24-character hex string or any 12-character string. -/

def isHexChar (c : Char) : Bool :=
  charBetween '0' '9' c || charBetween 'a' 'f' c || charBetween 'A' 'F' c

def isValidObjectId (s : String) : Bool :=
  s.length == 12 || (s.length == 24 && s.data.all isHexChar)

/-! ## The 24-hour time format regex of `updateBusinessHours`

Source regex: caret, group of an optional 0-or-1 then a digit, or 2 followed
by 0-3, then a colon, then 0-5 and a digit, then the end anchor. -/

def timeTest (s : String) : Bool :=
  match s.data with
  | [h1, ':', m1, m2] =>
    isDigitChar h1 && charBetween '0' '5' m1 && isDigitChar m2
  | [h1, h2, ':', m1, m2] =>
    (((h1 == '0' || h1 == '1') && isDigitChar h2) ||
      (h1 == '2' && charBetween '0' '3' h2))
      && charBetween '0' '5' m1 && isDigitChar m2
  | _ => false

/-! ## Data model

The mongoose schema files are not part of the analysed sources; the record
shapes below follow exactly the fields this controller reads and writes.
`kycDocuments` is written by `createRestaurant` as an object of three urls,
while `addKyc` spreads it as an array: `KycDocs` keeps both shapes. -/

inductive KycDocs where
  | urls (fssaiDocUrl gstDocUrl aadharDocUrl : String)
  | list (l : List String)

/-- A day entry of the `businessHours` payload; every field may be absent. -/
structure DayTimes where
  startTime : Option String := none
  endTime : Option String := none
  closed : Option Bool := none
deriving DecidableEq

/-- A service-area entry: a would-be GeoJSON polygon; `coordinates` is
`none` when absent or not an array. -/
structure Area where
  gtype : Option String := none
  coordinates : Option (List Js) := none

/-- A restaurant document, with the fields this controller touches. -/
structure Restaurant where
  id : String := ""
  name : String := ""
  ownerName : String := ""
  street : String := ""
  city : String := ""
  state : String := ""
  zip : String := ""
  locationType : String := "Point"
  coordinates : List JsNum := []
  phone : String := ""
  email : String := ""
  password : String := ""
  openingHours : List Js := []
  foodType : String := ""
  minOrderAmount : ℚ := 0
  paymentMethods : List String := []
  fssaiNumber : String := ""
  gstNumber : String := ""
  aadharNumber : String := ""
  kycDocuments : Option KycDocs := none
  kycStatus : Option String := none
  businessHours : Option (List (String × DayTimes)) := none
  serviceAreas : List Area := []
  approvalStatus : Option String := none

/-- A permission document (restaurantPermissionModel). -/
structure Permission where
  restaurantId : String
  canManageMenu : Bool
  canAcceptOrder : Bool
  canRejectOrder : Bool
  canManageOffers : Bool
  canViewReports : Bool
deriving DecidableEq

/-- A menu category document (categoryModel). -/
structure Category where
  id : String := ""
  restaurantId : String := ""
  name : String := ""
  description : String := ""
  images : List String := []
  active : Bool := false
deriving DecidableEq

/-- A product document (productModel), including the internal financial
fields that `getRestaurantMenu` projects away. -/
structure Product where
  id : String := ""
  restaurantId : String := ""
  categoryId : String := ""
  name : String := ""
  price : ℚ := 0
  revenueShare : ℚ := 0
  costPrice : ℚ := 0
  profitMargin : ℚ := 0
deriving DecidableEq

/-- A product as returned by the menu fan-out: the
`-revenueShare -costPrice -profitMargin` projection of `Product`. -/
structure ProductView where
  id : String
  restaurantId : String
  categoryId : String
  name : String
  price : ℚ
deriving DecidableEq

def projectProduct (p : Product) : ProductView :=
  { id := p.id, restaurantId := p.restaurantId, categoryId := p.categoryId,
    name := p.name, price := p.price }

/-- An earning document (RestaurantEarningModel); amounts may be absent. -/
structure Earning where
  restaurantId : String := ""
  totalOrderAmount : Option ℚ := none
  revenueShareAmount : Option ℚ := none

/-- The document database as seen by this controller. -/
structure Store where
  restaurants : List Restaurant := []
  permissions : List Permission := []
  categories : List Category := []
  products : List Product := []
  earnings : List Earning := []

/-- The `bcrypt` library surface used by the handler. -/
structure BcryptLib where
  genSalt : Nat → String
  hash : String → String → String

/-- External collaborators of the handlers.  `globalBcrypt` models the
runtime resolution of the free identifier `bcrypt`: the module neither
imports nor defines it, so in the actual module scope it is `none` and
touching it raises a ReferenceError. -/
structure Env where
  globalBcrypt : Option BcryptLib := none
  upload : String → Option String := fun _ => none
  freshId : String := ""
  randSuffix : String := ""

/-- `Restaurant.findById` / `findOne` on a request-supplied id: mongoose
first casts the id, raising a CastError (`Except.error`) when the id does
not have ObjectId shape. -/
def findById (st : Store) (id : String) : Except String (Option Restaurant) :=
  if isValidObjectId id then .ok (st.restaurants.find? (fun r => r.id == id))
  else .error "CastError"

/-- `restaurant.save()`: whole-document replacement by id. -/
def saveRestaurant (st : Store) (r : Restaurant) : Store :=
  { st with restaurants := st.restaurants.map (fun x => if x.id == r.id then r else x) }

/-! ## createRestaurant: validation pipeline

Each step mirrors one numbered block of the handler; a step returns
`some response` to model the early `return res.status(...)`. -/

/-- The fixed list of required dotted field paths (step 1). -/
def requiredFields : List String :=
  ["name", "ownerName", "phone", "email",
   "password",
   "fssaiNumber", "gstNumber", "aadharNumber",
   "address.street", "address.city", "address.state",
   "foodType", "openingHours"]

/-- The nested address object of the onboarding payload. -/
structure AddressInput where
  street : Option String := none
  city : Option String := none
  state : Option String := none
  pincode : Option String := none
  zip : Option String := none
  longitude : Option String := none
  latitude : Option String := none
deriving DecidableEq

/-- `paymentMethods` may arrive as a comma-separated string or an array. -/
inductive PaymentMethodsInput where
  | str (s : String)
  | arr (l : List String)
deriving DecidableEq

/-- The multipart body of the create request; every field may be absent. -/
structure CreateBody where
  name : Option String := none
  ownerName : Option String := none
  phone : Option String := none
  email : Option String := none
  password : Option String := none
  fssaiNumber : Option String := none
  gstNumber : Option String := none
  aadharNumber : Option String := none
  foodType : Option String := none
  openingHours : Option String := none
  address : Option AddressInput := none
  paymentMethods : Option PaymentMethodsInput := none
  minOrderAmount : Option ℚ := none
deriving DecidableEq

/-- The attached files of the create request (`req.files`), reduced to the
path of the first file under each of the three mandatory keys. -/
structure CreateFiles where
  fssaiDoc : Option String := none
  gstDoc : Option String := none
  aadharDoc : Option String := none
deriving DecidableEq

/-- The dotted-path walk of step 1 (`value = value?.[f]`), tabulated on the
paths the handler actually passes to it. -/
def lookupField (body : CreateBody) (field : String) : Option String :=
  match field with
  | "name" => body.name
  | "ownerName" => body.ownerName
  | "phone" => body.phone
  | "email" => body.email
  | "password" => body.password
  | "fssaiNumber" => body.fssaiNumber
  | "gstNumber" => body.gstNumber
  | "aadharNumber" => body.aadharNumber
  | "foodType" => body.foodType
  | "openingHours" => body.openingHours
  | "address.street" => (body.address.map AddressInput.street).join
  | "address.city" => (body.address.map AddressInput.city).join
  | "address.state" => (body.address.map AddressInput.state).join
  | _ => none

/-- A path is reported missing when it resolves to undefined or the empty
string (`value === undefined || value === ''`). -/
def fieldMissing (body : CreateBody) (field : String) : Bool :=
  match lookupField body field with
  | none => true
  | some v => v == ""

def missingFields (body : CreateBody) : List String :=
  requiredFields.filter (fieldMissing body)

/-- The response envelope of `createRestaurant` (all code paths). -/
structure CreateResponse where
  status : Nat
  success : Option Bool := none
  message : Option String := none
  code : Option String := none
  error : Option String := none
  restaurantId : Option String := none
  approvalStatus : Option String := none
deriving DecidableEq

/-- Step 1: required fields. -/
def checkRequired (body : CreateBody) : Option CreateResponse :=
  if (missingFields body).isEmpty then none
  else some { status := 400, success := some false,
              message := some ("Missing required fields: " ++ String.intercalate ", " (missingFields body)),
              code := some "REQUIRED_FIELD_MISSING" }

/-- Step 2: password strength. -/
def checkPassword (body : CreateBody) : Option CreateResponse :=
  if (body.password.getD "").length < 8 then
    some { status := 400, success := some false,
           message := some "Password must be at least 8 characters long",
           code := some "WEAK_PASSWORD" }
  else none

def validFoodTypes : List String := ["veg", "non-veg", "both"]

/-- Step 3: foodType enum. -/
def checkFoodType (body : CreateBody) : Option CreateResponse :=
  if validFoodTypes.contains (jsTrim (body.foodType.getD "")) then none
  else some { status := 400, success := some false,
              message := some ("Invalid foodType. Allowed: " ++ String.intercalate ", " validFoodTypes),
              code := some "INVALID_FOOD_TYPE" }

/-- Step 4: `JSON.parse` of `openingHours`, kept only when it is an array.
`JSON.parse(undefined)` coerces the argument to the string "undefined",
which fails to parse, exactly as modelled by the default here. -/
def parsedOpeningHours (body : CreateBody) : Option (List Js) :=
  match jsonParse (body.openingHours.getD "undefined") with
  | some (.arr xs) => some xs
  | _ => none

def respInvalidOpeningHours : CreateResponse :=
  { status := 400, success := some false,
    message := some "Invalid openingHours. Expected a valid JSON array.",
    code := some "INVALID_OPENING_HOURS" }

/-- Step 5: the three mandatory documents with their display labels. -/
def requiredDocs : List (String × String) :=
  [("fssaiDoc", "FSSAI License"), ("gstDoc", "GST Certificate"), ("aadharDoc", "Aadhar Card")]

def fileFor (files : CreateFiles) (key : String) : Option String :=
  match key with
  | "fssaiDoc" => files.fssaiDoc
  | "gstDoc" => files.gstDoc
  | "aadharDoc" => files.aadharDoc
  | _ => none

def missingDocs (files : CreateFiles) : List String :=
  (requiredDocs.filter (fun d => (fileFor files d.1).isNone)).map (·.2)

def checkDocs (files : CreateFiles) : Option CreateResponse :=
  if (missingDocs files).isEmpty then none
  else some { status := 400, success := some false,
              message := some ("Missing documents: " ++ String.intercalate ", " (missingDocs files)),
              code := some "DOCUMENT_REQUIRED" }

/-- Step 6: payment-method sanitization.  A string is split on commas and
trimmed; an absent value defaults to the online method; an array is used
as given. -/
def allowedPaymentMethods : List String := ["online", "cod", "wallet"]

def sanitizePaymentMethods (input : Option PaymentMethodsInput) : List String :=
  match input with
  | some (.str s) => (splitOnComma s).map jsTrim
  | none => ["online"]
  | some (.arr l) => l

def invalidPaymentMethods (pm : List String) : List String :=
  pm.filter (fun m => !(allowedPaymentMethods.contains m))

def respInvalidPayment (invalidMethods : List String) : CreateResponse :=
  { status := 400, success := some false,
    message := some ("Invalid payment methods: " ++ String.intercalate ", " invalidMethods ++
                     ". Allowed: " ++ String.intercalate ", " allowedPaymentMethods) }

/-- The catch-all handler: any exception becomes a 500 with the error text. -/
def respCatch (errMessage : String) : CreateResponse :=
  { status := 500, success := some false,
    message := some "Something went wrong", error := some errMessage }

/-- Slug derivation (step 9): lower-cased name with runs of characters
outside the lowercase alphanumerics collapsed to dashes, the lower-cased
city and a random suffix.  The handler computes it and never uses it. -/
def isLowerAlnum (c : Char) : Bool := charBetween 'a' 'z' c || charBetween '0' '9' c

def collapseNonAlnum : List Char → List Char
  | [] => []
  | c :: rest =>
    if isLowerAlnum c then c :: collapseNonAlnum rest
    else '-' :: collapseNonAlnum (rest.dropWhile (fun d => !(isLowerAlnum d)))
termination_by cs => cs.length
decreasing_by
  · simp only [List.length_cons]; omega
  · simp only [List.length_cons]
    have h : ∀ (l : List Char), (l.dropWhile (fun d => !(isLowerAlnum d))).length ≤ l.length := by
      intro l
      induction l with
      | nil => simp
      | cons x t ih =>
        rw [List.dropWhile_cons]
        split
        · simp only [List.length_cons]; omega
        · simp
    exact Nat.lt_succ_of_le (h _)

def slugify (name city rand : String) : String :=
  String.mk (collapseNonAlnum name.toLower.data) ++ "-" ++ city.toLower ++ "-" ++ rand

/-- Steps 7 through 12, reached once every validation has passed: password
hashing, the three document uploads, record construction, persistence and
the permission bootstrap. -/
def hashAndUpload (env : Env) (st : Store) (body : CreateBody) (files : CreateFiles)
    (openingHours : List Js) (paymentMethods : List String) (bc : BcryptLib) :
    CreateResponse × Store :=
  let salt := bc.genSalt 10
  let hashedPassword := bc.hash (body.password.getD "") salt
  match env.upload (files.fssaiDoc.getD ""), env.upload (files.gstDoc.getD ""),
        env.upload (files.aadharDoc.getD "") with
  | some fssaiUrl, some gstUrl, some aadharUrl =>
    let a := body.address.getD {}
    let _slug := slugify (body.name.getD "") (a.city.getD "") env.randSuffix
    let newRestaurant : Restaurant :=
      { id := env.freshId,
        name := jsTrim (body.name.getD ""),
        ownerName := jsTrim (body.ownerName.getD ""),
        street := jsTrim (a.street.getD ""),
        city := jsTrim (a.city.getD ""),
        state := jsTrim (a.state.getD ""),
        zip := jsOrStr a.pincode (jsOrStr a.zip ""),
        locationType := "Point",
        coordinates := [jsFloatOrZero a.longitude, jsFloatOrZero a.latitude],
        phone := jsTrim (body.phone.getD ""),
        email := jsTrim (body.email.getD ""),
        password := hashedPassword,
        openingHours := openingHours,
        foodType := jsTrim (body.foodType.getD ""),
        minOrderAmount := jsOrQDefault body.minOrderAmount 100,
        paymentMethods := paymentMethods,
        fssaiNumber := jsTrim (body.fssaiNumber.getD ""),
        gstNumber := jsTrim (body.gstNumber.getD ""),
        aadharNumber := jsTrim (body.aadharNumber.getD ""),
        kycDocuments := some (.urls fssaiUrl gstUrl aadharUrl) }
    let st1 : Store := { st with restaurants := newRestaurant :: st.restaurants }
    let newPermission : Permission :=
      { restaurantId := env.freshId,
        canManageMenu := true,
        canAcceptOrder := false,
        canRejectOrder := false,
        canManageOffers := false,
        canViewReports := true }
    let st2 : Store := { st1 with permissions := newPermission :: st1.permissions }
    ({ status := 201, success := some true, code := some "RESTAURANT_CREATED",
       restaurantId := some env.freshId,
       approvalStatus := newRestaurant.approvalStatus }, st2)
  | _, _, _ => (respCatch "Document upload failed", st)

/-- The `createRestaurant` handler. -/
def createRestaurant (env : Env) (st : Store) (body : CreateBody) (files : CreateFiles) :
    CreateResponse × Store :=
  match checkRequired body with
  | some r => (r, st)
  | none =>
    match checkPassword body with
    | some r => (r, st)
    | none =>
      match checkFoodType body with
      | some r => (r, st)
      | none =>
        match parsedOpeningHours body with
        | none => (respInvalidOpeningHours, st)
        | some openingHours =>
          match checkDocs files with
          | some r => (r, st)
          | none =>
            let paymentMethods := sanitizePaymentMethods body.paymentMethods
            let invalidMethods := invalidPaymentMethods paymentMethods
            if invalidMethods.isEmpty then
              match env.globalBcrypt with
              | none => (respCatch "bcrypt is not defined", st)
              | some bc => hashAndUpload env st body files openingHours paymentMethods bc
            else (respInvalidPayment invalidMethods, st)

/-- All six validation steps of `createRestaurant` pass. -/
def validationOk (body : CreateBody) (files : CreateFiles) : Bool :=
  (missingFields body).isEmpty
  && !(decide ((body.password.getD "").length < 8))
  && validFoodTypes.contains (jsTrim (body.foodType.getD ""))
  && (parsedOpeningHours body).isSome
  && (missingDocs files).isEmpty
  && (invalidPaymentMethods (sanitizePaymentMethods body.paymentMethods)).isEmpty

/-- The first five validation steps pass (everything before the
payment-method check). -/
def prePaymentOk (body : CreateBody) (files : CreateFiles) : Bool :=
  (missingFields body).isEmpty
  && !(decide ((body.password.getD "").length < 8))
  && validFoodTypes.contains (jsTrim (body.foodType.getD ""))
  && (parsedOpeningHours body).isSome
  && (missingDocs files).isEmpty

/-! ## updateBusinessHours -/

structure BusinessHoursResponse where
  status : Nat
  message : Option String := none
  businessHours : Option (List (String × DayTimes)) := none
deriving DecidableEq

def validDays : List String :=
  ["monday", "tuesday", "wednesday", "thursday", "friday", "saturday", "sunday"]

/-- The per-day validation loop: the first offending entry produces the 400
message, a day marked closed (strictly `closed === true`) is skipped, and
an open day needs both times present (truthy) and matching the regex. -/
def checkBusinessHours : List (String × DayTimes) → Option String
  | [] => none
  | (day, times) :: rest =>
    if !(validDays.contains day) then some ("Invalid day: " ++ day)
    else if times.closed == some true then checkBusinessHours rest
    else if jsFalsyStr times.startTime || jsFalsyStr times.endTime then
      some ("Missing startTime or endTime for " ++ day ++ ".")
    else if !(timeTest (times.startTime.getD "")) || !(timeTest (times.endTime.getD "")) then
      some ("Invalid time format for " ++ day ++ ". Use HH:mm.")
    else checkBusinessHours rest

/-- The `updateBusinessHours` handler.  `businessHours` is `none` when the
body carries no object under that key. -/
def updateBusinessHours (st : Store) (restaurantId : String)
    (businessHours : Option (List (String × DayTimes))) :
    BusinessHoursResponse × Store :=
  if !(isValidObjectId restaurantId) then
    ({ status := 400, message := some "Invalid or missing restaurantId." }, st)
  else
    match businessHours with
    | none => ({ status := 400, message := some "businessHours must be a valid object." }, st)
    | some bh =>
      match checkBusinessHours bh with
      | some msg => ({ status := 400, message := some msg }, st)
      | none =>
        match st.restaurants.find? (fun r => r.id == restaurantId) with
        | none => ({ status := 404, message := some "Restaurant not found." }, st)
        | some r =>
          let r2 := { r with businessHours := some bh }
          ({ status := 200, message := some "Business hours updated successfully.",
             businessHours := some bh }, saveRestaurant st r2)

/-! ## deleteRestaurant / getRestaurantById -/

structure MsgResponse where
  status : Nat
  message : String
deriving DecidableEq

/-- `deleteOne` removes the first matching document. -/
def deleteOnePermission : List Permission → String → List Permission
  | [], _ => []
  | p :: rest, rid => if p.restaurantId == rid then rest else p :: deleteOnePermission rest rid

def deleteOneRestaurant : List Restaurant → String → List Restaurant
  | [], _ => []
  | r :: rest, rid => if r.id == rid then rest else r :: deleteOneRestaurant rest rid

def deleteRestaurant (st : Store) (restaurantId : String) : MsgResponse × Store :=
  if restaurantId == "" then ({ status := 400, message := "restaurantId is required." }, st)
  else if !(isValidObjectId restaurantId) then
    ({ status := 400, message := "Invalid restaurantId format." }, st)
  else
    match st.restaurants.find? (fun r => r.id == restaurantId) with
    | none => ({ status := 404, message := "Restaurant not found." }, st)
    | some r =>
      let st1 : Store := { st with restaurants := deleteOneRestaurant st.restaurants r.id }
      let st2 : Store := { st1 with permissions := deleteOnePermission st1.permissions restaurantId }
      ({ status := 200, message := "Restaurant and its permissions deleted successfully." }, st2)

structure GetResponse where
  status : Nat
  message : String
  data : Option Restaurant := none

def getRestaurantById (st : Store) (restaurantId : String) : GetResponse :=
  if restaurantId == "" then { status := 400, message := "restaurantId is required." }
  else if !(isValidObjectId restaurantId) then
    { status := 400, message := "Invalid restaurantId format." }
  else
    match st.restaurants.find? (fun r => r.id == restaurantId) with
    | none => { status := 404, message := "Restaurant not found." }
    | some r => { status := 200, message := "Restaurant fetched successfully.", data := some r }

/-! ## addKyc / getKyc

Neither handler validates the id shape: `findById` is called directly, so a
malformed id raises a CastError that lands in the catch block (500). -/

structure KycAddResponse where
  status : Nat
  message : String
  restaurant : Option Restaurant := none

def addKyc (env : Env) (st : Store) (restaurantId : String) (files : List String) :
    KycAddResponse × Store :=
  match findById st restaurantId with
  | .error _ => ({ status := 500, message := "Server error while uploading KYC." }, st)
  | .ok none => ({ status := 404, message := "Restaurant not found." }, st)
  | .ok (some r) =>
    let kycUrls := files.filterMap env.upload
    match r.kycDocuments with
    | some (.list l) =>
      let r2 := { r with kycDocuments := some (.list (l ++ kycUrls)),
                         kycStatus := some "pending" }
      ({ status := 200, message := "KYC documents uploaded successfully.",
         restaurant := some r2 }, saveRestaurant st r2)
    | _ =>
      -- spreading a non-array `kycDocuments` (the object written by
      -- createRestaurant, or an absent field) throws a TypeError
      ({ status := 500, message := "Server error while uploading KYC." }, st)

structure KycGetResponse where
  status : Nat
  message : String
  kycDocuments : Option KycDocs := none
  kycStatus : Option String := none

def getKyc (st : Store) (restaurantId : String) : KycGetResponse :=
  match findById st restaurantId with
  | .error _ => { status := 500, message := "Server error while fetching KYC." }
  | .ok none => { status := 404, message := "Restaurant not found." }
  | .ok (some r) =>
    { status := 200, message := "KYC details fetched successfully.",
      kycDocuments := some (r.kycDocuments.getD (.list [])),
      kycStatus := some (jsOrStr r.kycStatus "not-submitted") }

/-! ## addServiceArea -/

structure AreaResponse where
  status : Nat
  message : String
  messageType : String
  data : Option (List Area) := none

/-- One entry of the polygon-validation loop: truthy `type` equal to
"Polygon" and a non-empty coordinates array. -/
def validArea (a : Area) : Bool :=
  (match a.gtype with
   | some t => t == "Polygon"
   | none => false)
  && (match a.coordinates with
      | some cs => !cs.isEmpty
      | none => false)

def addServiceArea (st : Store) (restaurantId : String)
    (serviceAreas : Option (List Area)) : AreaResponse × Store :=
  if !(isValidObjectId restaurantId) then
    ({ status := 400, message := "Invalid restaurant ID", messageType := "failure" }, st)
  else
    match serviceAreas with
    | none =>
      ({ status := 400, message := "serviceAreas must be a non-empty array of GeoJSON Polygons",
         messageType := "failure" }, st)
    | some areas =>
      if areas.isEmpty then
        ({ status := 400, message := "serviceAreas must be a non-empty array of GeoJSON Polygons",
           messageType := "failure" }, st)
      else if !(areas.all validArea) then
        ({ status := 400,
           message := "Each serviceArea must be a valid GeoJSON Polygon with coordinates",
           messageType := "failure" }, st)
      else
        match st.restaurants.find? (fun r => r.id == restaurantId) with
        | none => ({ status := 404, message := "Restaurant not found", messageType := "failure" }, st)
        | some r =>
          let r2 := { r with serviceAreas := areas }
          ({ status := 200, message := "Service areas updated successfully",
             messageType := "success", data := some areas }, saveRestaurant st r2)

/-! ## getRestaurantMenu -/

structure MenuCategory where
  categoryId : String
  categoryName : String
  description : String
  images : List String
  totalProducts : Nat
  items : List ProductView
deriving DecidableEq

structure MenuResponse where
  status : Nat
  message : String
  messageType : String
  data : Option (List MenuCategory) := none
deriving DecidableEq

def menuEntryFor (st : Store) (restaurantId : String) (category : Category) : MenuCategory :=
  let products := (st.products.filter
    (fun p => p.restaurantId == restaurantId && p.categoryId == category.id)).map projectProduct
  { categoryId := category.id, categoryName := category.name,
    description := category.description, images := category.images,
    totalProducts := products.length, items := products }

def getRestaurantMenu (st : Store) (restaurantId : String) : MenuResponse :=
  if !(isValidObjectId restaurantId) then
    { status := 400, message := "Invalid restaurantId format", messageType := "failure" }
  else
    let categories := st.categories.filter (fun c => c.restaurantId == restaurantId && c.active)
    if categories.isEmpty then
      { status := 404, message := "No categories found for this restaurant.",
        messageType := "failure" }
    else
      { status := 200, message := "Menu fetched successfully", messageType := "success",
        data := some (categories.map (menuEntryFor st restaurantId)) }

/-! ## getRestaurantEarningSummary -/

structure EarningSummary where
  totalAmount : ℚ
  totalRevenue : ℚ
deriving DecidableEq

structure EarningResponse where
  status : Nat
  success : Bool
  message : Option String := none
  summary : Option EarningSummary := none
deriving DecidableEq

/-- One step of the reduce: absent amounts contribute 0. -/
def earningStep (acc : EarningSummary) (curr : Earning) : EarningSummary :=
  { totalAmount := acc.totalAmount + jsOrZeroQ curr.totalOrderAmount,
    totalRevenue := acc.totalRevenue + jsOrZeroQ curr.revenueShareAmount }

def getRestaurantEarningSummary (st : Store) (restaurantId : String) : EarningResponse :=
  let totalEarnings := st.earnings.filter (fun e => e.restaurantId == restaurantId)
  let summary := totalEarnings.foldl earningStep { totalAmount := 0, totalRevenue := 0 }
  { status := 200, success := true, summary := some summary }

/-! ## Concrete fixtures used by the witness theorems -/

/-- A syntactically valid ObjectId (24 hex characters). -/
def oid : String := "6401234567890123456789ab"

def emptyStore : Store := {}

def bodyW : CreateBody :=
  { name := some "Tasty Corner", ownerName := some "Alice", phone := some "9876543210",
    email := some "alice@example.com", password := some "longpassword",
    fssaiNumber := some "F1", gstNumber := some "G1", aadharNumber := some "A1",
    foodType := some "veg", openingHours := some "[]",
    address := some { street := some "1 Main St", city := some "Kota", state := some "RJ" } }

def filesW : CreateFiles :=
  { fssaiDoc := some "/tmp/fssai.pdf", gstDoc := some "/tmp/gst.pdf",
    aadharDoc := some "/tmp/aadhar.pdf" }

/-- An address whose longitude does not parse while its latitude does. -/
def mixedAddrW : AddressInput :=
  { street := some "1 Main St", city := some "Kota", state := some "RJ",
    longitude := some "abc", latitude := some "12.5" }

def bodyMixedW : CreateBody := { bodyW with address := some mixedAddrW }

def bcW : BcryptLib := { genSalt := fun _ => "salt", hash := fun p s => p ++ ":" ++ s }

def envNoBcrypt : Env :=
  { globalBcrypt := none, upload := fun p => some (p ++ ".url"),
    freshId := oid, randSuffix := "ab12" }

def envOk : Env := { envNoBcrypt with globalBcrypt := some bcW }

def envUploadFail : Env := { envOk with upload := fun _ => none }

def restW : Restaurant := { id := oid }

def storeW : Store := { restaurants := [restW] }

/-- A sample valid GeoJSON polygon input for the service-area handler. -/
def polygonW : Area := { gtype := some "Polygon", coordinates := some [Js.arr []] }

/-- A concrete menu store: one active category for the restaurant, no
products at all. -/
def menuStoreW : Store :=
  { categories := [{ id := "c1", restaurantId := oid, name := "Starters", active := true }] }

/-- A concrete earning store with the two example records. -/
def earningStoreW : Store :=
  { earnings := [{ restaurantId := "r1", totalOrderAmount := some 100, revenueShareAmount := some 10 },
                 { restaurantId := "r1", totalOrderAmount := some 50, revenueShareAmount := some 5 }] }

/-- Replaces the longitude and latitude of the payload address, leaving
everything else unchanged. -/
def setCoords (body : CreateBody) (lo la : Option String) : CreateBody :=
  { body with address := body.address.map (fun a => { a with longitude := lo, latitude := la }) }


/-! ## Shared lemmas about the createRestaurant pipeline -/

lemma of_validationOk {body : CreateBody} {files : CreateFiles}
    (hv : validationOk body files = true) :
    (missingFields body).isEmpty = true ∧
    ¬ (body.password.getD "").length < 8 ∧
    validFoodTypes.contains (jsTrim (body.foodType.getD "")) = true ∧
    (parsedOpeningHours body).isSome = true ∧
    (missingDocs files).isEmpty = true ∧
    (invalidPaymentMethods (sanitizePaymentMethods body.paymentMethods)).isEmpty = true := by
  simp only [validationOk, Bool.and_eq_true, Bool.not_eq_true', decide_eq_false_iff_not] at hv
  tauto

lemma checkRequired_eq_none {body : CreateBody}
    (h : (missingFields body).isEmpty = true) : checkRequired body = none := by
  simp [checkRequired, h]

lemma checkPassword_eq_none {body : CreateBody}
    (h : ¬ (body.password.getD "").length < 8) : checkPassword body = none := by
  simp [checkPassword, h]

lemma checkFoodType_eq_none {body : CreateBody}
    (h : validFoodTypes.contains (jsTrim (body.foodType.getD "")) = true) :
    checkFoodType body = none := by
  unfold checkFoodType
  rw [if_pos h]

lemma checkDocs_eq_none {files : CreateFiles}
    (h : (missingDocs files).isEmpty = true) : checkDocs files = none := by
  simp [checkDocs, h]

/-- Once all six validation steps pass, the handler is the bcrypt lookup
followed by the upload-and-persist tail. -/
lemma createRestaurant_afterValidation (env : Env) (st : Store) (body : CreateBody)
    (files : CreateFiles) (hv : validationOk body files = true) :
    createRestaurant env st body files =
      match env.globalBcrypt with
      | none => (respCatch "bcrypt is not defined", st)
      | some bc =>
        hashAndUpload env st body files ((parsedOpeningHours body).getD [])
          (sanitizePaymentMethods body.paymentMethods) bc := by
  obtain ⟨h1, h2, h3, h4, h5, h6⟩ := of_validationOk hv
  obtain ⟨xs, hxs⟩ := Option.isSome_iff_exists.mp h4
  unfold createRestaurant
  rw [checkRequired_eq_none h1, checkPassword_eq_none h2, checkFoodType_eq_none h3,
      checkDocs_eq_none h5, hxs]
  simp only [hxs, Option.getD_some, h6, if_pos]

/-- C1: for every createRestaurant request that passes all validation steps
(required fields, password length, foodType, openingHours JSON array, the
three mandatory documents, payment methods), the handler responds 500 and
never reaches the 201 success response, because the password-hashing step
references the identifier bcrypt, which the module neither imports nor
defines, so evaluation throws into the catch-all handler. -/
theorem C1_bcrypt_undefined_forces_500 (env : Env) (st : Store) (body : CreateBody)
    (files : CreateFiles) (hb : env.globalBcrypt = none)
    (hv : validationOk body files = true) :
    (createRestaurant env st body files).1.status = 500 ∧
    (createRestaurant env st body files).1.status ≠ 201 ∧
    (createRestaurant env st body files).1.error = some "bcrypt is not defined" ∧
    (createRestaurant env st body files).2 = st := by
  rw [createRestaurant_afterValidation env st body files hv, hb]
  refine ⟨rfl, ?_, rfl, rfl⟩
  simp [respCatch]

/-- C1 witness: a concrete fully-valid request evaluated in the module
scope (no bcrypt binding) yields the 500 response. -/
theorem C1_witness :
    validationOk bodyW filesW = true ∧
    (createRestaurant envNoBcrypt emptyStore bodyW filesW).1.status = 500 :=
  ⟨by decide,
   (C1_bcrypt_undefined_forces_500 envNoBcrypt emptyStore bodyW filesW rfl (by decide)).1⟩

/-- C3: if any one of the three mandatory KYC document uploads fails during
createRestaurant, the whole onboarding operation fails with a 500 response
and neither a restaurant record nor a permission record is created: the
store is returned unchanged, so persistence is never reached. -/
theorem C3_upload_failure_no_partial_commit (env : Env) (st : Store) (body : CreateBody)
    (files : CreateFiles) (bc : BcryptLib) (hb : env.globalBcrypt = some bc)
    (hv : validationOk body files = true)
    (hup : env.upload (files.fssaiDoc.getD "") = none ∨
           env.upload (files.gstDoc.getD "") = none ∨
           env.upload (files.aadharDoc.getD "") = none) :
    (createRestaurant env st body files).1.status = 500 ∧
    (createRestaurant env st body files).2 = st := by
  rw [createRestaurant_afterValidation env st body files hv, hb]
  unfold hashAndUpload
  rcases hf : env.upload (files.fssaiDoc.getD "") with _ | u1 <;>
    rcases hg : env.upload (files.gstDoc.getD "") with _ | u2 <;>
      rcases ha : env.upload (files.aadharDoc.getD "") with _ | u3 <;>
        simp_all [respCatch]

/-- C3 witness: with a concrete valid request, a working bcrypt binding and
an upload service that fails, the handler returns 500 and leaves the empty
store empty. -/
theorem C3_witness :
    (createRestaurant envUploadFail emptyStore bodyW filesW).1.status = 500 ∧
    (createRestaurant envUploadFail emptyStore bodyW filesW).2 = emptyStore :=
  C3_upload_failure_no_partial_commit envUploadFail emptyStore bodyW filesW bcW rfl
    (by decide) (Or.inl rfl)

/-- C4: whenever createRestaurant returns the 201 success response, exactly
one Permission record has been created for the new restaurant id, with
canManageMenu and canViewReports true and canAcceptOrder, canRejectOrder
and canManageOffers false. -/
theorem C4_success_creates_default_permission (env : Env) (st : Store) (body : CreateBody)
    (files : CreateFiles)
    (h201 : (createRestaurant env st body files).1.status = 201) :
    ∃ r : Restaurant,
      (createRestaurant env st body files).2.restaurants = r :: st.restaurants ∧
      r.id = env.freshId ∧
      (createRestaurant env st body files).2.permissions =
        ({ restaurantId := env.freshId, canManageMenu := true, canAcceptOrder := false,
           canRejectOrder := false, canManageOffers := false, canViewReports := true } :
          Permission) :: st.permissions ∧
      (createRestaurant env st body files).1.restaurantId = some env.freshId := by
  rcases hE : createRestaurant env st body files with ⟨resp, st2⟩
  rw [hE] at h201
  unfold createRestaurant at hE
  rcases hcr : checkRequired body with _ | r0
  case some =>
    rw [hcr] at hE
    simp only [checkRequired] at hcr
    split at hcr
    · exact absurd hcr (by simp)
    · cases hE; cases hcr; simp at h201
  case none =>
  rw [hcr] at hE
  rcases hcp : checkPassword body with _ | r0
  case some =>
    rw [hcp] at hE
    simp only [checkPassword] at hcp
    split at hcp
    · cases hE; cases hcp; simp at h201
    · exact absurd hcp (by simp)
  case none =>
  rw [hcp] at hE
  rcases hcf : checkFoodType body with _ | r0
  case some =>
    rw [hcf] at hE
    simp only [checkFoodType] at hcf
    split at hcf
    · exact absurd hcf (by simp)
    · cases hE; cases hcf; simp at h201
  case none =>
  rw [hcf] at hE
  rcases hoh : parsedOpeningHours body with _ | xs
  case none =>
    rw [hoh] at hE
    cases hE; simp [respInvalidOpeningHours] at h201
  case some =>
  rw [hoh] at hE
  rcases hcd : checkDocs files with _ | r0
  case some =>
    rw [hcd] at hE
    simp only [checkDocs] at hcd
    split at hcd
    · exact absurd hcd (by simp)
    · cases hE; cases hcd; simp at h201
  case none =>
  rw [hcd] at hE
  simp only [] at hE
  by_cases hinv :
      (invalidPaymentMethods (sanitizePaymentMethods body.paymentMethods)).isEmpty = true
  case neg =>
    rw [if_neg hinv] at hE
    cases hE; simp [respInvalidPayment] at h201
  case pos =>
  rw [if_pos hinv] at hE
  rcases hbc : env.globalBcrypt with _ | bc
  case none =>
    rw [hbc] at hE
    cases hE; simp [respCatch] at h201
  case some =>
  rw [hbc] at hE
  unfold hashAndUpload at hE
  rcases hf : env.upload (files.fssaiDoc.getD "") with _ | u1 <;>
    rcases hg : env.upload (files.gstDoc.getD "") with _ | u2 <;>
      rcases ha : env.upload (files.aadharDoc.getD "") with _ | u3 <;>
        rw [hf, hg, ha] at hE
  case some.some.some =>
    cases hE
    exact ⟨_, rfl, rfl, rfl, rfl⟩
  all_goals (cases hE; simp [respCatch] at h201)

/-- C4 witness: a concrete successful onboarding creates exactly the default
permission record for the new id. -/
theorem C4_witness :
    ∃ r : Restaurant,
      (createRestaurant envOk emptyStore bodyW filesW).2.restaurants =
        r :: emptyStore.restaurants ∧
      r.id = envOk.freshId ∧
      (createRestaurant envOk emptyStore bodyW filesW).2.permissions =
        ({ restaurantId := envOk.freshId, canManageMenu := true, canAcceptOrder := false,
           canRejectOrder := false, canManageOffers := false, canViewReports := true } :
          Permission) :: emptyStore.permissions ∧
      (createRestaurant envOk emptyStore bodyW filesW).1.restaurantId = some envOk.freshId :=
  C4_success_creates_default_permission envOk emptyStore bodyW filesW (by decide)

/-- A required path is counted missing exactly when it resolves to
undefined or to the empty string. -/
lemma fieldMissing_iff (body : CreateBody) (f : String) :
    fieldMissing body f = true ↔
      lookupField body f = none ∨ lookupField body f = some "" := by
  unfold fieldMissing
  rcases lookupField body f with _ | v <;> simp

/-- C5: for every onboarding payload in which one or more of the fixed
required dotted paths resolves to undefined or the empty string,
createRestaurant returns a 400 response whose message lists all of the
missing fields together (the comma-join of the full collected list), not
only the first one found. -/
theorem C5_missing_fields_reported_together (env : Env) (st : Store) (body : CreateBody)
    (files : CreateFiles)
    (h : ∃ f ∈ requiredFields, lookupField body f = none ∨ lookupField body f = some "") :
    createRestaurant env st body files =
      ({ status := 400, success := some false,
         message := some ("Missing required fields: " ++
           String.intercalate ", " (missingFields body)),
         code := some "REQUIRED_FIELD_MISSING" }, st) ∧
    ∀ g, g ∈ missingFields body ↔
      (g ∈ requiredFields ∧ (lookupField body g = none ∨ lookupField body g = some "")) := by
  obtain ⟨f, hf, hmiss⟩ := h
  have hmem : f ∈ missingFields body :=
    List.mem_filter.mpr ⟨hf, (fieldMissing_iff body f).mpr hmiss⟩
  have hne : missingFields body ≠ [] := List.ne_nil_of_mem hmem
  constructor
  · unfold createRestaurant checkRequired
    rw [if_neg (by simp [List.isEmpty_iff, hne])]
  · intro g
    rw [missingFields, List.mem_filter, fieldMissing_iff]

/-- C5 witness: a concrete payload missing both name and email is rejected
with the message listing the two fields together. -/
theorem C5_witness :
    createRestaurant envOk emptyStore { bodyW with name := none, email := some "" } filesW =
      ({ status := 400, success := some false,
         message := some ("Missing required fields: " ++ String.intercalate ", "
           (missingFields { bodyW with name := none, email := some "" })),
         code := some "REQUIRED_FIELD_MISSING" }, emptyStore) ∧
    missingFields { bodyW with name := none, email := some "" } = ["name", "email"] :=
  ⟨(C5_missing_fields_reported_together envOk emptyStore
      { bodyW with name := none, email := some "" } filesW
      ⟨"name", by decide, Or.inl rfl⟩).1,
   by decide⟩

/-- C6: a paymentMethods value given as a comma-separated string is split
on commas and trimmed into an array ("online,cod" normalizes to the
two-element array), an absent paymentMethods defaults to the online
method, and when any resulting entry is outside the allowed set the
request is rejected with a 400 response listing exactly the invalid
entries. -/
theorem C6_payment_methods (env : Env) (st : Store) (body : CreateBody)
    (files : CreateFiles) (hpre : prePaymentOk body files = true) :
    (∀ s, sanitizePaymentMethods (some (.str s)) = (splitOnComma s).map jsTrim) ∧
    sanitizePaymentMethods none = ["online"] ∧
    sanitizePaymentMethods (some (.str "online,cod")) = ["online", "cod"] ∧
    (∀ m, m ∈ invalidPaymentMethods (sanitizePaymentMethods body.paymentMethods) ↔
      (m ∈ sanitizePaymentMethods body.paymentMethods ∧ m ∉ allowedPaymentMethods)) ∧
    (invalidPaymentMethods (sanitizePaymentMethods body.paymentMethods) ≠ [] →
      createRestaurant env st body files =
        (respInvalidPayment (invalidPaymentMethods (sanitizePaymentMethods body.paymentMethods)),
         st)) := by
  refine ⟨fun s => rfl, rfl, by decide, ?_, ?_⟩
  · intro m
    rw [invalidPaymentMethods, List.mem_filter]
    simp
  · intro hne
    simp only [prePaymentOk, Bool.and_eq_true, Bool.not_eq_true',
      decide_eq_false_iff_not] at hpre
    obtain ⟨⟨⟨⟨h1, h2⟩, h3⟩, h4⟩, h5⟩ := hpre
    obtain ⟨xs, hxs⟩ := Option.isSome_iff_exists.mp h4
    unfold createRestaurant
    rw [checkRequired_eq_none h1, checkPassword_eq_none h2, checkFoodType_eq_none h3,
        checkDocs_eq_none h5, hxs]
    simp only []
    rw [if_neg (by simp [List.isEmpty_iff, hne])]

/-- C6 witness: the wallet-and-bogus array is rejected with a message
identifying exactly the entry bogus. -/
theorem C6_witness :
    (createRestaurant envOk emptyStore
        { bodyW with paymentMethods := some (.arr ["wallet", "bogus"]) } filesW).1.message =
      some "Invalid payment methods: bogus. Allowed: online, cod, wallet" ∧
    sanitizePaymentMethods (some (.str "online,cod")) = ["online", "cod"] := by
  have h := C6_payment_methods envOk emptyStore
    { bodyW with paymentMethods := some (.arr ["wallet", "bogus"]) } filesW (by decide)
  refine ⟨?_, h.2.2.1⟩
  rw [h.2.2.2.2 (by decide)]
  decide

/-- When the per-day loop accepts the whole payload, every entry has a
recognized day name and is either marked closed or has both times present
and well formed. -/
lemma checkBusinessHours_none_sound {bh : List (String × DayTimes)}
    (h : checkBusinessHours bh = none) :
    ∀ p ∈ bh, validDays.contains p.1 = true ∧
      (p.2.closed = some true ∨
        (jsFalsyStr p.2.startTime = false ∧ jsFalsyStr p.2.endTime = false ∧
         timeTest (p.2.startTime.getD "") = true ∧ timeTest (p.2.endTime.getD "") = true)) := by
  induction bh with
  | nil => simp
  | cons p rest ih =>
    rcases p with ⟨day, times⟩
    unfold checkBusinessHours at h
    by_cases h1 : (!(validDays.contains day)) = true
    · rw [if_pos h1] at h; simp at h
    · rw [if_neg h1] at h
      by_cases h2 : (times.closed == some true) = true
      · rw [if_pos h2] at h
        intro q hq
        rcases List.mem_cons.mp hq with rfl | hq2
        · exact ⟨by simpa using h1, Or.inl (by simpa using h2)⟩
        · exact ih h q hq2
      · rw [if_neg h2] at h
        by_cases h3 : (jsFalsyStr times.startTime || jsFalsyStr times.endTime) = true
        · rw [if_pos h3] at h; simp at h
        · rw [if_neg h3] at h
          by_cases h4 : (!(timeTest (times.startTime.getD "")) ||
              !(timeTest (times.endTime.getD ""))) = true
          · rw [if_pos h4] at h; simp at h
          · rw [if_neg h4] at h
            intro q hq
            rcases List.mem_cons.mp hq with rfl | hq2
            · simp only [Bool.or_eq_true, Bool.not_eq_true'] at h3 h4
              push_neg at h3 h4
              exact ⟨by simpa using h1,
                Or.inr ⟨by simpa using h3.1, by simpa using h3.2,
                        by simpa using h4.1, by simpa using h4.2⟩⟩
            · exact ih h q hq2

/-- C7: updateBusinessHours rejects with 400 any payload containing a day
key outside the seven weekday names; accepts a day entry marked closed
without requiring startTime or endTime; and for any day not marked closed
requires both times to be present and to match the 24-hour format -- the
monday-closed payload succeeds while a monday entry with startTime 25:00
is rejected for invalid time format. -/
theorem C7_business_hours_validation (st : Store) (id : String)
    (bh : List (String × DayTimes))
    (hid : isValidObjectId id = true)
    (hfound : (st.restaurants.find? (fun r => r.id == id)).isSome = true) :
    ((∃ p ∈ bh, validDays.contains p.1 = false) →
      (updateBusinessHours st id (some bh)).1.status = 400) ∧
    ((∃ p ∈ bh, p.2.closed ≠ some true ∧
        (jsFalsyStr p.2.startTime = true ∨ jsFalsyStr p.2.endTime = true ∨
         timeTest (p.2.startTime.getD "") = false ∨ timeTest (p.2.endTime.getD "") = false)) →
      (updateBusinessHours st id (some bh)).1.status = 400) ∧
    (updateBusinessHours st id (some [("monday", { closed := some true })])).1.status = 200 ∧
    (updateBusinessHours st id
        (some [("monday", { startTime := some "25:00", endTime := some "10:00" })])).1 =
      { status := 400, message := some "Invalid time format for monday. Use HH:mm." } := by
  have hgate : (!(isValidObjectId id)) = false := by simp [hid]
  refine ⟨?_, ?_, ?_, ?_⟩
  · rintro ⟨q, hq, hbad⟩
    unfold updateBusinessHours
    rw [hgate]
    simp only [Bool.false_eq_true, if_false]
    rcases hcb : checkBusinessHours bh with _ | msg
    · have := (checkBusinessHours_none_sound hcb q hq).1
      rw [this] at hbad
      exact absurd hbad (by simp)
    · rfl
  · rintro ⟨q, hq, hcl, hbad⟩
    unfold updateBusinessHours
    rw [hgate]
    simp only [Bool.false_eq_true, if_false]
    rcases hcb : checkBusinessHours bh with _ | msg
    · rcases (checkBusinessHours_none_sound hcb q hq).2 with hc | ⟨hg1, hg2, hg3, hg4⟩
      · exact absurd hc hcl
      · rcases hbad with hb | hb | hb | hb <;> simp_all
    · rfl
  · unfold updateBusinessHours
    rw [hgate]
    simp only [Bool.false_eq_true, if_false]
    rw [show checkBusinessHours [("monday", { closed := some true })] = none from rfl]
    obtain ⟨r, hr⟩ := Option.isSome_iff_exists.mp hfound
    rw [hr]
  · unfold updateBusinessHours
    rw [hgate]
    simp only [Bool.false_eq_true, if_false]
    rfl

/-- C7 witness: with a concrete store holding the restaurant, the
monday-closed payload succeeds, the out-of-range time is rejected for its
format, and an unknown day key is rejected. -/
theorem C7_witness :
    (updateBusinessHours storeW oid (some [("funday", { closed := some true })])).1.status = 400 ∧
    (updateBusinessHours storeW oid (some [("monday", { closed := some true })])).1.status = 200 ∧
    (updateBusinessHours storeW oid
        (some [("monday", { startTime := some "25:00", endTime := some "10:00" })])).1 =
      { status := 400, message := some "Invalid time format for monday. Use HH:mm." } := by
  have h := C7_business_hours_validation storeW oid [("funday", { closed := some true })]
    (by decide) (by decide)
  exact ⟨h.1 ⟨("funday", { closed := some true }), by decide, by decide⟩, h.2.2.1, h.2.2.2⟩

/-- C2 counterexample: addKyc and getKyc do not validate the id shape, so
the malformed id xyz produces the catch-all 500 (a mongoose CastError from
findById), not the 400 invalid-identifier response the claim requires. -/
theorem C2_counterexample :
    (getKyc emptyStore "xyz").status = 500 ∧
    ¬ (getKyc emptyStore "xyz").status = 400 ∧
    (addKyc envOk emptyStore "xyz" []).1.status = 500 ∧
    ¬ (addKyc envOk emptyStore "xyz" []).1.status = 400 := by
  decide

/-- C2 amended: among the operations taking a restaurant id,
deleteRestaurant, getRestaurantById, updateBusinessHours, addServiceArea
and getRestaurantMenu reject an id without valid ObjectId shape with a 400
response before any lookup, distinct from the 404 returned when the id has
valid shape but no matching record exists; addKyc and getKyc perform no
shape check, so a malformed id falls into their catch-all 500 handler
instead (they still return 404 for a well-formed absent id). -/
theorem C2_amended_shape_check_coverage (st : Store) (id : String) (env : Env)
    (files : List String) (bh : List (String × DayTimes)) (areas : List Area) :
    (isValidObjectId id = false →
      (deleteRestaurant st id).1.status = 400 ∧
      (getRestaurantById st id).status = 400 ∧
      (updateBusinessHours st id (some bh)).1.status = 400 ∧
      (addServiceArea st id (some areas)).1.status = 400 ∧
      (getRestaurantMenu st id).status = 400 ∧
      (addKyc env st id files).1.status = 500 ∧
      (getKyc st id).status = 500) ∧
    (isValidObjectId id = true →
      st.restaurants.find? (fun r => r.id == id) = none →
      (deleteRestaurant st id).1.status = 404 ∧
      (getRestaurantById st id).status = 404 ∧
      (updateBusinessHours st id (some [])).1.status = 404 ∧
      (addServiceArea st id (some [polygonW])).1.status = 404 ∧
      (addKyc env st id files).1.status = 404 ∧
      (getKyc st id).status = 404) := by
  constructor
  · intro hbad
    refine ⟨?_, ?_, ?_, ?_, ?_, ?_, ?_⟩
    · unfold deleteRestaurant
      cases h0 : (id == "")
      · rw [hbad]; rfl
      · rfl
    · unfold getRestaurantById
      cases h0 : (id == "")
      · rw [hbad]; rfl
      · rfl
    · unfold updateBusinessHours
      rw [hbad]
      rfl
    · unfold addServiceArea
      rw [hbad]
      rfl
    · unfold getRestaurantMenu
      rw [hbad]
      rfl
    · unfold addKyc findById
      rw [hbad]
      rfl
    · unfold getKyc findById
      rw [hbad]
      rfl
  · intro hok habs
    have hne : (id == "") = false := by
      rcases h0 : id == "" with _ | _
      · rfl
      · have : id = "" := by simpa using h0
        subst this
        exact absurd hok (by decide)
    refine ⟨?_, ?_, ?_, ?_, ?_, ?_⟩
    · unfold deleteRestaurant
      rw [hne, hok, habs]
      rfl
    · unfold getRestaurantById
      rw [hne, hok, habs]
      rfl
    · unfold updateBusinessHours
      rw [hok]
      simp only [Bool.not_true, Bool.false_eq_true, if_false]
      rw [show checkBusinessHours [] = none from rfl, habs]
    · unfold addServiceArea
      rw [hok]
      simp only [Bool.not_true, Bool.false_eq_true, if_false]
      rw [show ([polygonW].all validArea) = true from rfl, habs]
      rfl
    · unfold addKyc findById
      rw [hok, if_pos rfl, habs]
    · unfold getKyc findById
      rw [hok, if_pos rfl, habs]

/-- C2 amended witness: the malformed id xyz is rejected with 400 by the
operations that check the shape, while a well-formed absent id draws 404. -/
theorem C2_amended_witness :
    ((deleteRestaurant emptyStore "xyz").1.status = 400 ∧
     (getRestaurantMenu emptyStore "xyz").status = 400) ∧
    ((deleteRestaurant emptyStore oid).1.status = 404 ∧
     (getKyc emptyStore oid).status = 404) := by
  have h1 := (C2_amended_shape_check_coverage emptyStore "xyz" envOk [] [] []).1 (by decide)
  have h2 := (C2_amended_shape_check_coverage emptyStore oid envOk [] [] []).2
    (by decide) rfl
  exact ⟨⟨h1.1, h1.2.2.2.2.1⟩, ⟨h2.1, h2.2.2.2.2.2⟩⟩

/-- C8: getRestaurantMenu returns a 404 failure (data null, not an empty
success list) when the restaurant has zero active categories; when
categories exist it returns 200 and a category with zero products appears
with an empty items list; and every returned product is the projection
that drops revenueShare, costPrice and profitMargin. -/
theorem C8_menu_fanout (st : Store) (id : String) (hid : isValidObjectId id = true) :
    (st.categories.filter (fun c => c.restaurantId == id && c.active) = [] →
      (getRestaurantMenu st id).status = 404 ∧
      (getRestaurantMenu st id).messageType = "failure" ∧
      (getRestaurantMenu st id).data = none) ∧
    (st.categories.filter (fun c => c.restaurantId == id && c.active) ≠ [] →
      (getRestaurantMenu st id).status = 200 ∧
      (getRestaurantMenu st id).messageType = "success" ∧
      ∃ menu, (getRestaurantMenu st id).data = some menu ∧
        (∀ c ∈ st.categories.filter (fun c => c.restaurantId == id && c.active),
          st.products.filter (fun p => p.restaurantId == id && p.categoryId == c.id) = [] →
          ∃ e ∈ menu, e.categoryId = c.id ∧ e.items = []) ∧
        (∀ e ∈ menu, ∀ item ∈ e.items, ∃ p ∈ st.products, item = projectProduct p)) := by
  have hgate : (!(isValidObjectId id)) = false := by simp [hid]
  unfold getRestaurantMenu
  rw [hgate]
  simp only [Bool.false_eq_true, if_false]
  constructor
  · intro hcats
    rw [hcats]
    exact ⟨rfl, rfl, rfl⟩
  · intro hcats
    rw [if_neg (by simp [List.isEmpty_iff, hcats])]
    refine ⟨rfl, rfl, _, rfl, ?_, ?_⟩
    · intro c hc hprod
      refine ⟨menuEntryFor st id c, List.mem_map.mpr ⟨c, hc, rfl⟩, rfl, ?_⟩
      unfold menuEntryFor
      rw [hprod]
      rfl
    · intro e he item hit
      obtain ⟨c, hc, rfl⟩ := List.mem_map.mp he
      unfold menuEntryFor at hit
      simp only [] at hit
      obtain ⟨p, hp, rfl⟩ := List.mem_map.mp hit
      exact ⟨p, (List.mem_filter.mp hp).1, rfl⟩

/-- C8 witness: the empty store draws the 404 no-categories failure, while
the store with one empty category draws a 200 success. -/
theorem C8_witness :
    (getRestaurantMenu emptyStore oid).status = 404 ∧
    (getRestaurantMenu emptyStore oid).data = none ∧
    (getRestaurantMenu menuStoreW oid).status = 200 := by
  have h1 := (C8_menu_fanout emptyStore oid (by decide)).1 rfl
  have h2 := (C8_menu_fanout menuStoreW oid (by decide)).2 (by decide)
  exact ⟨h1.1, h1.2.2, h2.1⟩

/-- The reduce over earning records computes the sums of the per-record
contributions. -/
lemma earningFold_eq (l : List Earning) (a b : ℚ) :
    l.foldl earningStep { totalAmount := a, totalRevenue := b } =
      { totalAmount := a + (l.map (fun e => jsOrZeroQ e.totalOrderAmount)).sum,
        totalRevenue := b + (l.map (fun e => jsOrZeroQ e.revenueShareAmount)).sum } := by
  induction l generalizing a b with
  | nil => simp
  | cons e t ih =>
    rw [List.foldl_cons, ih]
    simp [earningStep, add_assoc]

/-- C9: getRestaurantEarningSummary folds over all earning records of the
restaurant, summing each record's totalOrderAmount into totalAmount and
revenueShareAmount into totalRevenue, treating absent values as 0; over
the two example records it yields totals 150 and 15. -/
theorem C9_earning_summary :
    (∀ st id, (getRestaurantEarningSummary st id).status = 200 ∧
      (getRestaurantEarningSummary st id).summary = some
        { totalAmount := ((st.earnings.filter (fun e => e.restaurantId == id)).map
            (fun e => jsOrZeroQ e.totalOrderAmount)).sum,
          totalRevenue := ((st.earnings.filter (fun e => e.restaurantId == id)).map
            (fun e => jsOrZeroQ e.revenueShareAmount)).sum }) ∧
    jsOrZeroQ none = 0 ∧
    (getRestaurantEarningSummary earningStoreW "r1").summary =
      some { totalAmount := 150, totalRevenue := 15 } := by
  refine ⟨fun st id => ⟨rfl, ?_⟩, rfl, ?_⟩
  · unfold getRestaurantEarningSummary
    simp only [earningFold_eq, zero_add]
  · unfold getRestaurantEarningSummary
    simp only [earningFold_eq, zero_add]
    norm_num [earningStoreW, jsOrZeroQ]

/-- The required-field walk never reads longitude or latitude. -/
lemma lookupField_setCoords (body : CreateBody) (lo la : Option String)
    (f : String) (hf : f ∈ requiredFields) :
    lookupField (setCoords body lo la) f = lookupField body f := by
  fin_cases hf <;> rcases ha : body.address with _ | a0 <;>
    simp [lookupField, setCoords, ha]

lemma missingFields_setCoords (body : CreateBody) (lo la : Option String) :
    missingFields (setCoords body lo la) = missingFields body := by
  unfold missingFields
  refine List.filter_congr ?_
  intro f hf
  unfold fieldMissing
  rw [lookupField_setCoords body lo la f hf]

/-- A component that is absent or fails to parse contributes 0 after the
truthiness default. -/
lemma jsFloatOrZero_eq_zero {v : Option String}
    (h : v = none ∨ ∃ s, v = some s ∧ jsParseFloat s = none) :
    jsFloatOrZero v = .fin 0 := by
  rcases h with h | ⟨s, hs, hp⟩
  · rw [h]; rfl
  · rw [hs]
    show jsNumTruthyOrZero (jsParseFloat s) = .fin 0
    rw [hp]; rfl

/-- C10: when address.longitude or address.latitude is absent or does not
parse as a number, the stored location coordinates silently default to 0
for that component, independently of the other component (both failing
yields the pair of zeros), and malformed coordinates never cause a
validation failure, since neither field is in the required-field list and
the validation outcome is unchanged under any replacement of the two
fields. -/
theorem C10_coordinates_default_to_zero (env : Env) (st : Store) (body : CreateBody)
    (files : CreateFiles) (bc : BcryptLib) (a : AddressInput)
    (hb : env.globalBcrypt = some bc)
    (hv : validationOk body files = true)
    (hupf : (env.upload (files.fssaiDoc.getD "")).isSome = true)
    (hg : (env.upload (files.gstDoc.getD "")).isSome = true)
    (hax : (env.upload (files.aadharDoc.getD "")).isSome = true)
    (ha : body.address = some a) :
    (∃ r : Restaurant,
      (createRestaurant env st body files).2.restaurants = r :: st.restaurants ∧
      r.coordinates = [jsFloatOrZero a.longitude, jsFloatOrZero a.latitude] ∧
      ((a.longitude = none ∨ ∃ s, a.longitude = some s ∧ jsParseFloat s = none) →
        r.coordinates = [.fin 0, jsFloatOrZero a.latitude]) ∧
      ((a.latitude = none ∨ ∃ s, a.latitude = some s ∧ jsParseFloat s = none) →
        r.coordinates = [jsFloatOrZero a.longitude, .fin 0]) ∧
      ((a.longitude = none ∨ ∃ s, a.longitude = some s ∧ jsParseFloat s = none) →
       (a.latitude = none ∨ ∃ s, a.latitude = some s ∧ jsParseFloat s = none) →
        r.coordinates = [.fin 0, .fin 0])) ∧
    (∀ lo la, validationOk (setCoords body lo la) files = validationOk body files) ∧
    "address.longitude" ∉ requiredFields ∧ "address.latitude" ∉ requiredFields := by
  refine ⟨?_, ?_, by decide, by decide⟩
  · obtain ⟨u1, hu1⟩ := Option.isSome_iff_exists.mp hupf
    obtain ⟨u2, hu2⟩ := Option.isSome_iff_exists.mp hg
    obtain ⟨u3, hu3⟩ := Option.isSome_iff_exists.mp hax
    rw [createRestaurant_afterValidation env st body files hv, hb]
    unfold hashAndUpload
    rw [hu1, hu2, hu3]
    simp only [ha, Option.getD_some]
    refine ⟨_, rfl, rfl, ?_, ?_, ?_⟩
    · intro hlo
      rw [show Restaurant.coordinates _ = [jsFloatOrZero a.longitude, jsFloatOrZero a.latitude]
        from rfl, jsFloatOrZero_eq_zero hlo]
    · intro hla
      rw [show Restaurant.coordinates _ = [jsFloatOrZero a.longitude, jsFloatOrZero a.latitude]
        from rfl, jsFloatOrZero_eq_zero hla]
    · intro hlo hla
      rw [show Restaurant.coordinates _ = [jsFloatOrZero a.longitude, jsFloatOrZero a.latitude]
        from rfl, jsFloatOrZero_eq_zero hlo, jsFloatOrZero_eq_zero hla]
  · intro lo la
    unfold validationOk
    rw [missingFields_setCoords]
    rfl

/-- C10 witness: with longitude "abc" (no numeric prefix) and latitude
"12.5", only the longitude component defaults to 0; with both coordinates
absent the stored pair is the two zeros. -/
theorem C10_witness :
    (∃ r : Restaurant,
      (createRestaurant envOk emptyStore bodyMixedW filesW).2.restaurants =
        r :: emptyStore.restaurants ∧
      r.coordinates = [.fin 0, jsFloatOrZero (some "12.5")]) ∧
    (∃ r : Restaurant,
      (createRestaurant envOk emptyStore bodyW filesW).2.restaurants =
        r :: emptyStore.restaurants ∧
      r.coordinates = [.fin 0, .fin 0]) := by
  constructor
  · obtain ⟨r, h1, _, h3, _, _⟩ :=
      (C10_coordinates_default_to_zero envOk emptyStore bodyMixedW filesW bcW mixedAddrW
        rfl (by decide) rfl rfl rfl rfl).1
    exact ⟨r, h1, h3 (Or.inr ⟨"abc", rfl, by decide⟩)⟩
  · obtain ⟨r, h1, _, _, _, h5⟩ :=
      (C10_coordinates_default_to_zero envOk emptyStore bodyW filesW bcW
        { street := some "1 Main St", city := some "Kota", state := some "RJ" }
        rfl (by decide) rfl rfl rfl rfl).1
    exact ⟨r, h1, h5 (Or.inl rfl) (Or.inl rfl)⟩
